import Mathlib

/-!
Shallow embedding of the ProductionOptimizationProblem formulation engine
(`src/bills_of_materials.py`, `src/utils.py`, the constraint builders under
`src/constraints_builders/`, `src/variables.py`, and
`src/optimizers/manufacturing_optimizer.py`), together with proofs checking
the natural-language specification against it.

Conventions of the embedding:
* Python `int` is `Int`; Python `float` quantities are `ℚ` (the model is
  exact linear arithmetic, no float rounding is exercised by the code).
  Lean's `%` on `Int` is `Int.emod`, which agrees with Python `%` for the
  positive modulus `24` used by the code.
* A Pyomo constraint rule is a function returning `Option Constr`:
  `some c` is a generated constraint (a predicate on variable valuations)
  and `none` is `Constraint.Skip`.
* Python dictionaries are `Option`-valued functions or association lists;
  `dict.get(k, d)` is `Option.getD`.
-/

namespace ProductionOpt

/-- Python `range(lo, hi)` over integers: `lo, lo+1, …, hi-1` (empty when
`hi ≤ lo`). -/
def pyRange (lo hi : Int) : List Int :=
  (List.range (hi - lo).toNat).map (fun i => lo + (i : Int))

/-- A `(material, time)` index tuple (`build_material_time_indexes` element). -/
abbrev MatTime := String × Int

/-- A `(material, equipment, formula, time)` index tuple. -/
abbrev MEFT := String × String × String × Int

/-- An `(equipment, time)` index tuple. -/
abbrev EquipTime := String × Int

/-- `src/utils.py` `build_material_time_indexes`: all `(material, time)` pairs,
materials outer, `time in range(t0, tmax + 1)` inner. -/
def build_material_time_indexes (materials : List String) (t0 tmax : Int) :
    List MatTime :=
  materials.flatMap (fun material => (pyRange t0 (tmax + 1)).map (fun time => (material, time)))

/-- `src/utils.py` `build_single_material_equipment_formula_time_index`. -/
def build_single_material_equipment_formula_time_index
    (material equipment formula : String) (time : Int) : MEFT :=
  (material, equipment, formula, time)

/-- `src/utils.py` `build_material_equipment_formula_time_indexes`: material
outer, then equipment, then formula, then time. -/
def build_material_equipment_formula_time_indexes
    (materials all_equipment formulas : List String) (t0 tmax : Int) :
    List MEFT :=
  materials.flatMap (fun material =>
    all_equipment.flatMap (fun equipment =>
      formulas.flatMap (fun formula =>
        (pyRange t0 (tmax + 1)).map (fun time =>
          build_single_material_equipment_formula_time_index material equipment formula time))))

/-- `src/utils.py` `build_equipment_time_indexes`: equipment outer, time inner. -/
def build_equipment_time_indexes (all_equipment : List String) (t0 tmax : Int) :
    List EquipTime :=
  all_equipment.flatMap (fun equipment => (pyRange t0 (tmax + 1)).map (fun time => (equipment, time)))

/-- `src/utils.py` `build_equipment_formula_time_indexes`. -/
def build_equipment_formula_time_indexes
    (all_equipment formulas : List String) (t0 tmax : Int) :
    List (String × String × Int) :=
  all_equipment.flatMap (fun equipment =>
    formulas.flatMap (fun formula =>
      (pyRange t0 (tmax + 1)).map (fun time => (equipment, formula, time))))

/-! ## Bills of materials (`src/bills_of_materials.py`) -/

/-- One row of the BOM table, with the default column roles of `Bom.__init__`:
`(formula, manufactured_good, component, material_to_quantity)`. -/
abbrev BomRow := String × String × String × ℚ

/-- The formula of a BOM row. -/
def BomRow.formula (r : BomRow) : String := r.1

/-- The parent (`manufactured_good`) column of a BOM row. -/
def BomRow.parent (r : BomRow) : String := r.2.1

/-- The child (`component`) column of a BOM row. -/
def BomRow.child (r : BomRow) : String := r.2.2.1

/-- The `material_to_quantity` proportion of a BOM row. -/
def BomRow.proportion (r : BomRow) : ℚ := r.2.2.2

/-- Logical content of a constructed `Bom`: the rows of its `_bom_data`
table, with the default column names. -/
structure Bom where
  rows : List BomRow
deriving DecidableEq

/-- The `formula_parent_component` key of a row, as written by `Bom.__init__`
via `unify_columns_into_tuple`. -/
def BomRow.key (r : BomRow) : String × String × String :=
  (r.formula, r.parent, r.child)

/-- The `formula_parent_component` keys of all rows, in row order. -/
def Bom.rawKeys (b : Bom) : List (String × String × String) :=
  b.rows.map BomRow.key

/-- `pandas.Series.unique().tolist()`: the values of a column with
duplicates removed, keeping the first occurrence of each value.
`seen` accumulates the values already emitted. -/
def uniqueAux : List String → List String → List String
  | [], _ => []
  | x :: xs, seen =>
    if x ∈ seen then uniqueAux xs seen else x :: uniqueAux xs (x :: seen)

/-- `pandas` `unique().tolist()` on a column. -/
def uniqueList (l : List String) : List String := uniqueAux l []

/-- `Bom.all_parent_materials`: `self._bom_data[parent_column].unique().tolist()`. -/
def Bom.all_parent_materials (b : Bom) : List String :=
  uniqueList (b.rows.map BomRow.parent)

/-- `Bom.all_component_materials`: `self._bom_data[children_column].unique().tolist()`. -/
def Bom.all_component_materials (b : Bom) : List String :=
  uniqueList (b.rows.map BomRow.child)

/-- A value stored in the dictionary built by
`create_mapping_dictionary_from_two_columns`: a plain number when the key
column has no duplicates, a list of numbers (from `groupby(level=0).agg(list)`)
when any key is duplicated. -/
inductive BomVal where
  | q (x : ℚ)
  | listVal (xs : List ℚ)
deriving DecidableEq

/-- `src/preprocessing.py` `create_mapping_dictionary_from_two_columns`,
applied to `(key, value)` rows: when no key is duplicated the dictionary maps
each present key to its value; when any key is duplicated, every present key
is mapped to the list of its values in row order. -/
def create_mapping_dictionary_from_two_columns {K : Type} [DecidableEq K]
    (rows : List (K × ℚ)) (k : K) : Option BomVal :=
  if (rows.map Prod.fst).Nodup then
    (rows.find? (fun r => decide (r.1 = k))).map (fun r => BomVal.q r.2)
  else
    let vs := (rows.filter (fun r => decide (r.1 = k))).map Prod.snd
    if vs.isEmpty then none else some (BomVal.listVal vs)

/-- The `_bom_raw` dictionary rows of a `Bom`:
`formula_parent_component ↦ material_to_quantity`. -/
def Bom.rawRows (b : Bom) : List ((String × String × String) × ℚ) :=
  b.rows.map (fun r => (r.key, r.proportion))

/-- `Bom.get_required_quantity`: `self._bom_raw.get((formula, parent, child), 0)`.
A pure dictionary lookup with default `0`; it never raises and does not touch
the `Bom`. -/
def Bom.get_required_quantity (b : Bom)
    (formula parent_material children_material : String) : BomVal :=
  (create_mapping_dictionary_from_two_columns b.rawRows
      (formula, parent_material, children_material)).getD (BomVal.q 0)

/-- The numeric required quantity of a `Bom` whose
`formula_parent_component` keys are not duplicated (the only case in which
the source dictionary is number-valued): the proportion of the row with the
given key, or `0` when no row has it. -/
def Bom.required_qty (b : Bom)
    (formula parent_material children_material : String) : ℚ :=
  ((b.rawRows.find? (fun r => decide (r.1 = (formula, parent_material, children_material)))).map
    Prod.snd).getD 0

/-! ## Variable valuations and constraints -/

/-- A valuation of the model's decision-variable families: the value the
solver (or any candidate point) assigns to each indexed variable. -/
structure Valuation where
  production : String → String → String → Int → ℚ
  inventory : String → Int → ℚ
  purchased : String → Int → ℚ
  filled_demand : String → Int → ℚ
  equipment_status : String → Int → ℚ

/-- A single generated constraint, as the predicate it imposes on
valuations. A rule returning `Option Constr` models a Pyomo rule:
`some c` is a generated constraint and `none` is `Constraint.Skip`. -/
def Constr := Valuation → Prop

/-! ## Flow constraints (`src/constraints_builders/flow_constraints.py`) -/

/-- The state of a `FlowConstraintsBuilder`. -/
structure FlowConstraintsBuilder where
  materials : List String
  t0 : Int
  tmax : Int
  all_equipment : List String
  formulas : List String
  bom : Bom

/-- The rule of `FlowConstraintsBuilder.material_flow_balance`, at index
`(material, t)`: skip at `t == tmax`, otherwise the balance equation
relating period `t` to period `t + 1`, with the production sums iterated
equipment-then-formula and the consumption sum iterated
parent-then-formula-then-equipment exactly as in the source.
`required_qty` is the `Bom`'s number-valued dictionary lookup (the source
dictionary is number-valued whenever the `formula_parent_component`
keys are not duplicated). -/
def material_flow_balance_rule (b : FlowConstraintsBuilder)
    (minimum_units_in_batch : ℚ) (material : String) (t : Int) : Option Constr :=
  if t = b.tmax then none
  else some (fun model =>
    model.inventory material (t + 1) =
      model.inventory material t
      + model.purchased material t
      + (b.all_equipment.map (fun equipment =>
          (b.formulas.map (fun formula =>
            model.production material equipment formula t)).sum)).sum
        * minimum_units_in_batch
      - (b.bom.all_parent_materials.map (fun parent_material =>
          (b.formulas.map (fun formula =>
            (b.all_equipment.map (fun equipment =>
              b.bom.required_qty formula parent_material material
                * model.production parent_material equipment formula t)).sum)).sum)).sum
        * minimum_units_in_batch
      - model.filled_demand material t)

/-- The index set of the `material_flow_balance` constraint family: the
builder's `all_materials_all_time_indexes`. -/
def material_flow_balance_index_set (b : FlowConstraintsBuilder) : List MatTime :=
  build_material_time_indexes b.materials b.t0 b.tmax

/-! ## Production constraints
(`src/constraints_builders/production_constraints.py`) -/

/-- The rule of
`ProductionConstraintsBuilder.no_production_when_factory_is_closed`
(the constraint the orchestrator stores as `no_production_at_t0`):
force `production == 0` when `time % 24` is outside `[8, 20]`, skip
otherwise. -/
def no_production_when_factory_is_closed_rule
    (material equipment formula : String) (time : Int) : Option Constr :=
  if time % 24 < 8 ∨ time % 24 > 20 then
    some (fun model => model.production material equipment formula time = 0)
  else none

/-- The rule of `ProductionConstraintsBuilder.components_cannot_be_produced`. -/
def components_cannot_be_produced_rule (component_materials : List String)
    (material equipment formula : String) (time : Int) : Option Constr :=
  if material ∈ component_materials then
    some (fun model => model.production material equipment formula time = 0)
  else none

/-- The rule of
`ProductionConstraintsBuilder.max_continuous_production_time_limit`:
when `time < tmax - max_continuous_time`, bound the sum of
`equipment_status[equipment, t]` for `t in range(time, time + max_continuous_time + 1)`
by `max_continuous_time`; otherwise skip. -/
def max_continuous_production_time_limit_rule
    (tmax max_continuous_time : Int) (equipment : String) (time : Int) :
    Option Constr :=
  if time < tmax - max_continuous_time then
    some (fun model =>
      ((pyRange time (time + max_continuous_time + 1)).map (fun t =>
        model.equipment_status equipment t)).sum ≤ (max_continuous_time : ℚ))
  else none

/-! ## Inventory constraints
(`src/constraints_builders/inventory_constraints.py`)

`InventoryConstraintsBuilder.set_initial_inventory` builds
`Constraint(self.materials, initial_inventory, rule=rule, ...)`: the Pyomo
constraint is indexed over the Cartesian product of the material list and
the keys of the `initial_inventory` dictionary, and for a two-dimensional
index `(material, k)` Pyomo invokes `rule(model, material, k)`.  The rule's
third parameter is named `initial_inventory`, so inside the rule body that
name is bound to the index element `k` — a material string, not the
dictionary — and `initial_inventory[material]` subscripts a `str` with a
`str`, which Python rejects with `TypeError: string indices must be
integers` for every input. -/

/-- Outcome of evaluating a piece of Python code: a value, or a raised
`TypeError` / `KeyError` / `IndexError`. -/
inductive PyResult (α : Type) where
  | ok (val : α)
  | typeErr
  | keyErr (key : String)
  | indexErr
deriving DecidableEq

/-- Map over the value of a successful outcome. -/
def PyResult.mapVal {α β : Type} (f : α → β) : PyResult α → PyResult β
  | .ok v => .ok (f v)
  | .typeErr => .typeErr
  | .keyErr k => .keyErr k
  | .indexErr => .indexErr

/-- A Python subscript index: an `int` or a `str`. -/
inductive PyIdx where
  | int (i : Int)
  | str (s : String)
deriving DecidableEq

/-- Python subscript on a `str` value: an integer index selects a character
(negative indices count from the end, out-of-range raises `IndexError`);
any `str` index raises `TypeError` (string indices must be integers). -/
def py_str_subscript (s : String) : PyIdx → PyResult String
  | .int i =>
    let n : Int := if i < 0 then i + (s.length : Int) else i
    if 0 ≤ n ∧ n < (s.length : Int) then
      match s.toList.get? n.toNat with
      | some c => .ok (String.singleton c)
      | none => .indexErr
    else .indexErr
  | .str _ => .typeErr

/-- The index set of the `initial_inventory_constraint` family:
`materials × initial_inventory.keys()` (Pyomo crosses the two positional
index arguments; iterating a dict yields its keys). -/
def set_initial_inventory_index_set (materials : List String)
    (initial_inventory : List (String × ℚ)) : List (String × String) :=
  materials.flatMap (fun material =>
    (initial_inventory.map Prod.fst).map (fun k => (material, k)))

/-- Python `==` between a numeric value and a string: cross-type equality
is simply false (it never identifies a number with a string). -/
def pyEqNumStr (_ : ℚ) (_ : String) : Prop := False

/-- Evaluation of the `set_initial_inventory` rule body at index
`(material, k)`: Python first evaluates
`model.inventory_quantity[material_index]` (a variable reference), then
`initial_inventory[material]` — but `initial_inventory` here is the rule
parameter bound to the index element `k`, a string, so this is
`py_str_subscript k (.str material)`.  If that subscript yielded a value
the rule would return the comparison of the inventory variable at
`(material, t0)` with that (string) value; it never does, since a string
subscripted by a string always raises `TypeError`. -/
def set_initial_inventory_rule (t0 : Int) (material k : String) :
    PyResult Constr :=
  (py_str_subscript k (.str material)).mapVal (fun s =>
    fun model => pyEqNumStr (model.inventory material t0) s)

/-! ## Decision variables (`src/variables.py`) -/

/-- A Pyomo variable domain used by the model: `NonNegativeReals`, or the
two-valued `{0, 1}` binary domain. -/
inductive Domain where
  | nonNegativeReals
  | binary
deriving DecidableEq

/-- Membership of a value in a variable domain. -/
def Domain.mem (d : Domain) (x : ℚ) : Prop :=
  match d with
  | .nonNegativeReals => 0 ≤ x
  | .binary => x = 0 ∨ x = 1

/-- The declaration of one indexed decision-variable family: its Pyomo
name, its `id`, its index set, and its domain. -/
structure VarDecl (ι : Type) where
  name : String
  id : String
  index_set : List ι
  domain : Domain

/-- `src/variables.py` `ProductionVariable`: `domain=NonNegativeReals`. -/
def ProductionVariable (material_equipment_formula_time_indexes : List MEFT) :
    VarDecl MEFT :=
  { name := "production", id := "production",
    index_set := material_equipment_formula_time_indexes,
    domain := Domain.nonNegativeReals }

/-- `src/variables.py` `InventoryVariable`: `domain=NonNegativeReals`. -/
def InventoryVariable (all_materials_all_time_indexes : List MatTime) :
    VarDecl MatTime :=
  { name := "inventory_quantity", id := "inventory_quantity",
    index_set := all_materials_all_time_indexes,
    domain := Domain.nonNegativeReals }

/-- `src/variables.py` `FilledDemand`: `domain=NonNegativeReals`. -/
def FilledDemand (all_materials_all_time_indexes : List MatTime) :
    VarDecl MatTime :=
  { name := "filled_demand", id := "filled_demand",
    index_set := all_materials_all_time_indexes,
    domain := Domain.nonNegativeReals }

/-- `src/variables.py` `PurchasedQtyVariable`: `domain=NonNegativeReals`. -/
def PurchasedQtyVariable (all_materials_all_time_indexes : List MatTime) :
    VarDecl MatTime :=
  { name := "purchased_quantity", id := "purchased_quantity",
    index_set := all_materials_all_time_indexes,
    domain := Domain.nonNegativeReals }

/-- Modelled from the spec: `EquipmentStatusVariable` is imported by
`src/optimizers/manufacturing_optimizer.py` from `src.variables` and
instantiated over the equipment×time index set, but its class definition is
missing from the source files; per the spec it is the
`equipment_status[equipment,time]` family, a "binary indicator: 1 if
equipment ran any formula at time t". -/
def EquipmentStatusVariable (equipment_time_indexes : List EquipTime) :
    VarDecl EquipTime :=
  { name := "equipment_status", id := "equipment_status",
    index_set := equipment_time_indexes,
    domain := Domain.binary }

/-! ## The orchestrator (`src/optimizers/manufacturing_optimizer.py`) -/

/-- The simulation data held by a `ManufacturingOptimizer` after
`__init__`, with the index spaces computed by the default (`None`) path of
the constructor: `tmax` is `simulation_duration`. -/
structure ManufacturingOptimizer where
  materials : List String
  all_equipment : List String
  formulas : List String
  minimum_units_in_batch : Int
  tmax : Int
  t0 : Int
  all_materials_all_time_indexes : List MatTime
  all_materials_t0_index : List MatTime
  material_equipment_formula_time_indexes : List MEFT
  equipment_time_indexes : List EquipTime

/-- `ManufacturingOptimizer.__init__` with the index-space arguments left
at their `None` defaults. -/
def mkManufacturingOptimizer (materials all_equipment formulas : List String)
    (minimum_units_in_batch simulation_duration t0 : Int) :
    ManufacturingOptimizer :=
  { materials := materials
    all_equipment := all_equipment
    formulas := formulas
    minimum_units_in_batch := minimum_units_in_batch
    tmax := simulation_duration
    t0 := t0
    all_materials_all_time_indexes :=
      build_material_time_indexes materials t0 simulation_duration
    all_materials_t0_index := build_material_time_indexes materials t0 t0
    material_equipment_formula_time_indexes :=
      build_material_equipment_formula_time_indexes materials all_equipment
        formulas t0 simulation_duration
    equipment_time_indexes :=
      build_equipment_time_indexes all_equipment t0 simulation_duration }

/-- The five variable families created by
`ManufacturingOptimizer._create_variables`. -/
structure ModelVariables where
  production : VarDecl MEFT
  filled_demand : VarDecl MatTime
  inventory_quantity : VarDecl MatTime
  purchased_quantity : VarDecl MatTime
  equipment_status : VarDecl EquipTime

/-- `ManufacturingOptimizer._create_variables`. -/
def create_variables (m : ManufacturingOptimizer) : ModelVariables :=
  { production := ProductionVariable m.material_equipment_formula_time_indexes
    filled_demand := FilledDemand m.all_materials_all_time_indexes
    inventory_quantity := InventoryVariable m.all_materials_all_time_indexes
    purchased_quantity := PurchasedQtyVariable m.all_materials_all_time_indexes
    equipment_status := EquipmentStatusVariable m.equipment_time_indexes }

/-! ## Objective (`ManufacturingOptimizer.get_objective_function_expression`
and `_build_objective_function`) -/

/-- Python `dict.get(key, 0.0)`: the mapped value, or `0` when the key is
unmapped; it never raises. -/
def dictGet {K : Type} (d : K → Option ℚ) (k : K) : ℚ := (d k).getD 0

/-- The `Costs` named tuple: the `inventory`, `purchase` and `production`
cost dictionaries. -/
structure Costs where
  inventory : String → Option ℚ
  purchase : String → Option ℚ
  production : String × String → Option ℚ

/-- `ManufacturingOptimizer.get_objective_function_expression`: the sum
over `all_materials_all_time_indexes` of the revenue term minus the
inventory, purchasing and production cost terms, with the production-cost
sum iterated formula-then-equipment and scaled by
`minimum_units_in_batch`, exactly as in the source. -/
def get_objective_function_expression (m : ManufacturingOptimizer)
    (costs : Costs) (selling_prices : String → Option ℚ) (model : Valuation) :
    ℚ :=
  (m.all_materials_all_time_indexes.map (fun mt =>
    dictGet selling_prices mt.1 * model.filled_demand mt.1 mt.2
    - dictGet costs.inventory mt.1 * model.inventory mt.1 mt.2
    - dictGet costs.purchase mt.1 * model.purchased mt.1 mt.2
    - (m.formulas.map (fun formula =>
        (m.all_equipment.map (fun equipment =>
          dictGet costs.production (equipment, formula)
            * model.production mt.1 equipment formula mt.2)).sum)).sum
      * (m.minimum_units_in_batch : ℚ))).sum

/-- A Pyomo objective sense. -/
inductive Sense where
  | minimize
  | maximize
deriving DecidableEq

/-- The objective owned by the model: its expression and its sense. -/
structure ObjectiveDecl where
  expr : Valuation → ℚ
  sense : Sense

/-- `ManufacturingOptimizer._build_objective_function`:
`Objective(expr=self.get_objective_function_expression(...), sense=maximize)`. -/
def build_objective_function (m : ManufacturingOptimizer) (costs : Costs)
    (selling_prices : String → Option ℚ) : ObjectiveDecl :=
  { expr := get_objective_function_expression m costs selling_prices
    sense := Sense.maximize }

/-! ## Result extraction (`BaseOptimizer.get_variable_results_on_dataframe_format`
and `ManufacturingOptimizer.generate_results`) -/

/-- The value map of a solved Pyomo variable family
(`model_variable.extract_values()`), with the family's `id`. -/
structure PyomoVarValues (ι : Type) where
  id : String
  values : List (ι × ℚ)

/-- A result table: column headers and one row per solved index, the row
being the index tuple plus the value column. -/
structure ResultTable (ι : Type) where
  headers : List String
  rows : List (ι × ℚ)

/-- The `col_headers` mapping of `ManufacturingOptimizer.generate_results`. -/
def col_headers : String → List String := fun id =>
  if id = "production" then ["material", "equipment", "formula", "time", "batches"]
  else if id = "filled_demand" then ["material", "time", "quantity"]
  else if id = "inventory_quantity" then ["material", "time", "quantity"]
  else if id = "purchased_quantity" then ["material", "time", "quantity"]
  else if id = "equipment_status" then ["equipment", "time", "status"]
  else []

/-- `BaseOptimizer.get_variable_results_on_dataframe_format`: build a
`Series` over every extracted value, turn it into a `DataFrame`, reset the
index and set the family's column headers.  The resulting table has one
row per extracted index — no row is filtered out. -/
def get_variable_results_on_dataframe_format {ι : Type}
    (model_variable : PyomoVarValues ι) (headers : String → List String) :
    ResultTable ι :=
  { headers := headers model_variable.id, rows := model_variable.values }

/-- The `OptimizationResults` named tuple of
`ManufacturingOptimizer.generate_results`. -/
structure OptimizationResults where
  production : ResultTable MEFT
  filled_demand : ResultTable MatTime
  inventory_quantity : ResultTable MatTime
  purchased_quantity : ResultTable MatTime
  equipment_status : ResultTable EquipTime

/-- `ManufacturingOptimizer.generate_results`, applied to the extracted
value maps of the five variable families. -/
def generate_results (production_values : List (MEFT × ℚ))
    (filled_demand_values inventory_values purchased_values : List (MatTime × ℚ))
    (status_values : List (EquipTime × ℚ)) : OptimizationResults :=
  { production :=
      get_variable_results_on_dataframe_format
        { id := "production", values := production_values } col_headers
    filled_demand :=
      get_variable_results_on_dataframe_format
        { id := "filled_demand", values := filled_demand_values } col_headers
    inventory_quantity :=
      get_variable_results_on_dataframe_format
        { id := "inventory_quantity", values := inventory_values } col_headers
    purchased_quantity :=
      get_variable_results_on_dataframe_format
        { id := "purchased_quantity", values := purchased_values } col_headers
    equipment_status :=
      get_variable_results_on_dataframe_format
        { id := "equipment_status", values := status_values } col_headers }

/-- The zero-row filter of `main.run_production_problem`:
`data.loc[data[value_column] != 0]`, applied to each result table before it
is written out.  This lives in `src/main.py`, outside the extractor. -/
def main_zero_row_filter {ι : Type} (table : ResultTable ι) : ResultTable ι :=
  { headers := table.headers,
    rows := table.rows.filter (fun r => decide (r.2 ≠ 0)) }

/-! ## The BOM table object (`Bom.__init__` and `src/preprocessing.py`)

`Bom.__init__` stores the caller's `bom_data` table without copying
(`self._bom_data = bom_data`) and then assigns
`self._bom_data["formula_parent_component"] = unify_columns_into_tuple(...)`,
a pandas column assignment that mutates the shared table object in place.
The table is modelled as an ordered association list of named columns; the
value returned by `bom_init_table` is the state of the caller's table after
construction. -/

/-- A cell of a pandas table: a string, a number, or a tuple of cells (as
produced by `unify_columns_into_tuple`). -/
inductive Cell where
  | s (v : String)
  | q (v : ℚ)
  | tup (a b c : Cell)
deriving DecidableEq

/-- A pandas table: its named columns in order. -/
abbrev DataFrame := List (String × List Cell)

/-- The column names of a table, in order. -/
def DataFrame.colNames (df : DataFrame) : List String := df.map Prod.fst

/-- `df[name]`: the cells of a named column (the empty list when the column
is absent; `Bom.__init__` only reads columns the BOM table is required to
have). -/
def DataFrame.getCol (df : DataFrame) (name : String) : List Cell :=
  ((df.find? (fun c => decide (c.1 = name))).map Prod.snd).getD []

/-- `df[name] = vals`: pandas column assignment — replace the column in
place when the name exists, append a new column otherwise. -/
def DataFrame.setCol (df : DataFrame) (name : String) (vals : List Cell) :
    DataFrame :=
  if name ∈ df.colNames then
    df.map (fun c => if c.1 = name then (name, vals) else c)
  else df ++ [(name, vals)]

/-- `src/preprocessing.py` `unify_columns_into_tuple` on three columns:
`tuple(zip(col1, col2, col3))`, truncating to the shortest column. -/
def unify_columns_into_tuple : List Cell → List Cell → List Cell → List Cell
  | a :: as, b :: bs, c :: cs => Cell.tup a b c :: unify_columns_into_tuple as bs cs
  | _, _, _ => []

/-- The caller's `bom_data` table as it stands after `Bom.__init__` (with
the default column-name arguments): the `formula_parent_component` column
has been written into the same table. -/
def bom_init_table (bom_data : DataFrame) : DataFrame :=
  bom_data.setCol "formula_parent_component"
    (unify_columns_into_tuple (bom_data.getCol "formula")
      (bom_data.getCol "manufactured_good") (bom_data.getCol "component"))

/-! ## Claim-side formulas

The two refinement claims (C1 on the flow-balance equation, C9 on the
objective) state an explicit formula; the following definitions transcribe
those formulas from the claim's words, to be compared with the definitions
taken from the source. -/

/-- The flow-balance equation exactly as the claim states it:
`inventory[m, t+1] == inventory[m, t] + purchased[m, t]
 + batchSize * (Σ over equipment e and formulas f of production[m,e,f,t])
 - batchSize * (Σ over parents p in allParentMaterials, formulas f and
   equipment e of requiredQuantity(f, p, m) * production[p,e,f,t])
 - filled_demand[m, t]`. -/
def claim_flow_balance_equation (b : FlowConstraintsBuilder)
    (batchSize : ℚ) (m : String) (t : Int) : Constr := fun model =>
  model.inventory m (t + 1) =
    model.inventory m t
    + model.purchased m t
    + batchSize * (b.all_equipment.map (fun e =>
        (b.formulas.map (fun f => model.production m e f t)).sum)).sum
    - batchSize * (b.bom.all_parent_materials.map (fun p =>
        (b.formulas.map (fun f =>
          (b.all_equipment.map (fun e =>
            b.bom.required_qty f p m * model.production p e f t)).sum)).sum)).sum
    - model.filled_demand m t

/-- The objective exactly as the claim states it: the sum over every
`(material m, time t)` index of
`sellingPrice(m) * filled_demand[m,t] - inventoryCost(m) * inventory[m,t]
 - purchaseCost(m) * purchased[m,t]
 - batchSize * (Σ over equipment e and formulas f of
   productionCost(e,f) * production[m,e,f,t])`,
with every unmapped lookup contributing `0`. -/
def claim_objective (m : ManufacturingOptimizer) (costs : Costs)
    (selling_prices : String → Option ℚ) (model : Valuation) : ℚ :=
  (m.all_materials_all_time_indexes.map (fun mt =>
    dictGet selling_prices mt.1 * model.filled_demand mt.1 mt.2
    - dictGet costs.inventory mt.1 * model.inventory mt.1 mt.2
    - dictGet costs.purchase mt.1 * model.purchased mt.1 mt.2
    - (m.minimum_units_in_batch : ℚ)
      * (m.all_equipment.map (fun equipment =>
          (m.formulas.map (fun formula =>
            dictGet costs.production (equipment, formula)
              * model.production mt.1 equipment formula mt.2)).sum)).sum)).sum

/-! ## Concrete instances used by witnesses and counterexamples -/

/-- A two-row BOM in which material `B` is the child of formula `f1` and
the parent of formula `f2`. -/
def bomBothRoles : Bom := ⟨[("f1", "A", "B", 1), ("f2", "B", "C", 1)]⟩

/-- A two-row BOM with distinct `formula_parent_component` keys. -/
def bomTwoRows : Bom := ⟨[("F", "P", "C", 2), ("F", "P", "D", 3)]⟩

/-- A one-material, one-equipment, one-formula flow builder over the
horizon `[0, 2]`, producing `P` from component `C` (2 units per unit). -/
def flowBuilderEx : FlowConstraintsBuilder :=
  { materials := ["P", "C"], t0 := 0, tmax := 2,
    all_equipment := ["E"], formulas := ["F"],
    bom := ⟨[("F", "P", "C", 2)]⟩ }

/-- A one-row BOM table, before construction of a `Bom` from it. -/
def bomTableEx : DataFrame :=
  [("formula", [Cell.s "f1"]), ("manufactured_good", [Cell.s "A"]),
   ("component", [Cell.s "B"]), ("material_to_quantity", [Cell.q 1])]

/-- A small optimizer over one material, one equipment, one formula and
the horizon `[0, 2]`, with batch size `10`. -/
def optEx : ManufacturingOptimizer :=
  mkManufacturingOptimizer ["A"] ["E"] ["F"] 10 2 0

/-- Cost dictionaries with no mapped key. -/
def emptyCosts : Costs :=
  { inventory := fun _ => none, purchase := fun _ => none,
    production := fun _ => none }

/-- A selling-price dictionary with no mapped key. -/
def noPrices : String → Option ℚ := fun _ => none

/-- The all-ones valuation. -/
def onesValuation : Valuation :=
  { production := fun _ _ _ _ => 1, inventory := fun _ _ => 1,
    purchased := fun _ _ => 1, filled_demand := fun _ _ => 1,
    equipment_status := fun _ _ => 1 }

/-! ## Helper lemmas -/

/-- Membership in `uniqueAux`: an element is kept iff it occurs in the
remaining input and has not been seen yet. -/
theorem mem_uniqueAux (x : String) :
    ∀ (l seen : List String), x ∈ uniqueAux l seen ↔ x ∈ l ∧ x ∉ seen := by
  intro l
  induction l with
  | nil => intro seen; simp [uniqueAux]
  | cons a as ih =>
    intro seen
    by_cases h : a ∈ seen
    · rw [uniqueAux, if_pos h, ih]
      constructor
      · rintro ⟨hx, hs⟩
        exact ⟨List.mem_cons_of_mem a hx, hs⟩
      · rintro ⟨hx, hs⟩
        rcases List.mem_cons.mp hx with rfl | hx
        · exact (hs h).elim
        · exact ⟨hx, hs⟩
    · rw [uniqueAux, if_neg h]
      constructor
      · intro hx
        rcases List.mem_cons.mp hx with rfl | hx
        · exact ⟨List.mem_cons_self x as, h⟩
        · have hmem := (ih (a :: seen)).mp hx
          exact ⟨List.mem_cons_of_mem a hmem.1,
            fun hs => hmem.2 (List.mem_cons_of_mem a hs)⟩
      · rintro ⟨hx, hs⟩
        rcases List.mem_cons.mp hx with rfl | hx
        · exact List.mem_cons_self x _
        · by_cases hxa : x = a
          · rw [hxa]
            exact List.mem_cons_self a _
          · refine List.mem_cons_of_mem a ((ih (a :: seen)).mpr ⟨hx, ?_⟩)
            intro hmem
            rcases List.mem_cons.mp hmem with h1 | h1
            · exact hxa h1
            · exact hs h1

/-- Membership in `uniqueList` is membership in the underlying column. -/
theorem mem_uniqueList (x : String) (l : List String) :
    x ∈ uniqueList l ↔ x ∈ l := by
  rw [uniqueList, mem_uniqueAux]
  simp

/-- Pointwise-equal maps have equal sums. -/
theorem sum_map_congr {α : Type} (l : List α) (f g : α → ℚ)
    (h : ∀ a ∈ l, f a = g a) : (l.map f).sum = (l.map g).sum := by
  induction l with
  | nil => rfl
  | cons a as ih =>
    simp only [List.map_cons, List.sum_cons]
    rw [h a (List.mem_cons_self a as), ih (fun x hx => h x (List.mem_cons_of_mem a hx))]

/-- Exchange of two nested list sums. -/
theorem sum_comm_q {α β : Type} (l1 : List α) (l2 : List β) (f : α → β → ℚ) :
    (l1.map (fun a => (l2.map (f a)).sum)).sum =
      (l2.map (fun b => (l1.map (fun a => f a b)).sum)).sum := by
  induction l1 with
  | nil => simp
  | cons a as ih =>
    simp only [List.map_cons, List.sum_cons, ih, List.sum_map_add]

/-- In an association list with no duplicated keys, `find?` on a present
key returns its entry. -/
theorem find?_assoc_of_nodup {K : Type} [DecidableEq K] (l : List (K × ℚ))
    (hl : (l.map Prod.fst).Nodup) (k : K) (v : ℚ) (hm : (k, v) ∈ l) :
    l.find? (fun r => decide (r.1 = k)) = some (k, v) := by
  induction l with
  | nil => cases hm
  | cons a as ih =>
    rcases List.mem_cons.mp hm with h | h
    · rw [← h]
      exact List.find?_cons_of_pos _ (by simp)
    · have hk : k ∈ as.map Prod.fst := List.mem_map.mpr ⟨(k, v), h, rfl⟩
      have ha : a.1 ∉ as.map Prod.fst := (List.nodup_cons.mp hl).1
      have hne : (decide (a.1 = k)) = false := by
        simp only [decide_eq_false_iff_not]
        intro he
        exact ha (he ▸ hk)
      simp only [List.find?_cons, hne]
      exact ih (List.nodup_cons.mp hl).2 h

/-- `find?` skips a prefix on which it fails. -/
theorem find?_append_of_none {α : Type} (l1 l2 : List α) (p : α → Bool)
    (h : l1.find? p = none) : (l1 ++ l2).find? p = l2.find? p := by
  induction l1 with
  | nil => rfl
  | cons a as ih =>
    by_cases hpa : p a = true
    · rw [List.find?_cons_of_pos _ hpa] at h
      cases h
    · rw [List.find?_cons_of_neg _ hpa] at h
      rw [List.cons_append, List.find?_cons_of_neg _ hpa]
      exact ih h

/-- The keys of the `_bom_raw` rows are the `formula_parent_component`
keys of the BOM rows. -/
theorem rawRows_map_fst (b : Bom) : b.rawRows.map Prod.fst = b.rawKeys := by
  simp only [Bom.rawRows, Bom.rawKeys, List.map_map]
  rfl

/-- Setting a fresh column makes it readable back. -/
theorem getCol_setCol_of_not_mem (df : DataFrame) (name : String)
    (vals : List Cell) (h : name ∉ df.colNames) :
    (df.setCol name vals).getCol name = vals := by
  rw [DataFrame.setCol, if_neg h, DataFrame.getCol]
  have h1 : df.find? (fun c => decide (c.1 = name)) = none := by
    rw [List.find?_eq_none]
    intro x hx
    simp only [decide_eq_true_eq]
    intro hxe
    exact h (hxe ▸ List.mem_map.mpr ⟨x, hx, rfl⟩)
  rw [find?_append_of_none _ _ _ h1]
  simp [List.find?]

/-! ## Claim theorems -/

/-- C2: when the orchestrator creates its variables, the
`equipment_status` family exists with the two-valued `{0, 1}` binary
domain, indexed by `(equipment, time)`, alongside the non-negative real
`production`, `inventory`, `purchased` and `filled_demand` families
(`EquipmentStatusVariable` is modelled from the spec, its class definition
being absent from the source tree). -/
theorem create_variables_equipment_status_binary (m : ManufacturingOptimizer) :
    (create_variables m).equipment_status.domain = Domain.binary ∧
    (∀ x : ℚ,
      Domain.mem (create_variables m).equipment_status.domain x ↔ (x = 0 ∨ x = 1)) ∧
    (create_variables m).equipment_status.index_set = m.equipment_time_indexes ∧
    (create_variables m).production.domain = Domain.nonNegativeReals ∧
    (create_variables m).inventory_quantity.domain = Domain.nonNegativeReals ∧
    (create_variables m).purchased_quantity.domain = Domain.nonNegativeReals ∧
    (create_variables m).filled_demand.domain = Domain.nonNegativeReals :=
  ⟨rfl, fun _ => Iff.rfl, rfl, rfl, rfl, rfl, rfl⟩

/-- C3 is false on the code: in `bomBothRoles` the material `"B"` appears
as the parent of formula `f2` and as the child of formula `f1`, yet
`all_component_materials` does contain it — the method returns every
distinct value of the children column and never excludes parents. -/
theorem all_component_materials_contains_parent :
    "B" ∈ bomBothRoles.all_parent_materials ∧
    "B" ∈ bomBothRoles.rows.map BomRow.child ∧
    "B" ∈ bomBothRoles.all_component_materials := by
  decide

/-- C3 (amended): `all_component_materials` returns exactly the distinct
materials of the children (`component`) column — membership in its result
is appearance as a child in some BOM row, regardless of whether the
material also appears as a parent; symmetrically `all_parent_materials`
is the distinct parent column. -/
theorem all_component_materials_amended (b : Bom) (mat : String) :
    (mat ∈ b.all_component_materials ↔ mat ∈ b.rows.map BomRow.child) ∧
    (mat ∈ b.all_parent_materials ↔ mat ∈ b.rows.map BomRow.parent) :=
  ⟨mem_uniqueList mat (b.rows.map BomRow.child),
   mem_uniqueList mat (b.rows.map BomRow.parent)⟩

/-- C4 is false on the code at the boundary: with `tmax = 5` and
`max_continuous_time = 2`, the time `t = 3 = tmax - max_continuous_time`
is in the equipment×time index set, the claim demands a window constraint
there, but the rule tests `time < tmax - max_continuous_time` strictly and
skips. -/
theorem max_continuous_time_limit_skips_boundary :
    (3 : Int) ≤ 5 - 2 ∧
    ("E", (3 : Int)) ∈ build_equipment_time_indexes ["E"] 0 5 ∧
    max_continuous_production_time_limit_rule 5 2 "E" 3 = none := by
  refine ⟨by norm_num, by decide, ?_⟩
  rfl

/-- C4 (amended): the run-length constraint is generated exactly for
`time < tmax - max_continuous_time` (strict): there it bounds the sum of
`equipment_status` over the inclusive window
`[time, time + max_continuous_time]` by `max_continuous_time`, and at
`time = tmax - max_continuous_time` and beyond no constraint is
generated. -/
theorem max_continuous_time_limit_amended
    (tmax max_continuous_time : Int) (equipment : String) (time : Int) :
    (time < tmax - max_continuous_time →
      max_continuous_production_time_limit_rule tmax max_continuous_time
          equipment time =
        some (fun model =>
          ((pyRange time (time + max_continuous_time + 1)).map (fun t =>
            model.equipment_status equipment t)).sum ≤ (max_continuous_time : ℚ))) ∧
    (tmax - max_continuous_time ≤ time →
      max_continuous_production_time_limit_rule tmax max_continuous_time
          equipment time = none) := by
  constructor
  · intro h
    rw [max_continuous_production_time_limit_rule, if_pos h]
  · intro h
    rw [max_continuous_production_time_limit_rule, if_neg (not_lt.mpr h)]

/-- Witness for the amended C4 at `tmax = 5`, `max_continuous_time = 2`:
the constraint is generated at `time = 1` and skipped at `time = 4`. -/
theorem max_continuous_time_limit_amended_w :
    max_continuous_production_time_limit_rule 5 2 "E" 1 =
      some (fun model =>
        ((pyRange 1 (1 + 2 + 1)).map (fun t =>
          model.equipment_status "E" t)).sum ≤ ((2 : Int) : ℚ)) ∧
    max_continuous_production_time_limit_rule 5 2 "E" 4 = none :=
  ⟨(max_continuous_time_limit_amended 5 2 "E" 1).1 (by norm_num),
   (max_continuous_time_limit_amended 5 2 "E" 4).2 (by norm_num)⟩

/-- C5 is false on the code for a horizon start inside factory hours: for
`t0 = 10`, the index `(M, E, F, 10)` is in the production index set of an
optimizer built with `t0 = 10`, but the constraint family the orchestrator
stores as `no_production_at_t0` (built by
`no_production_when_factory_is_closed`) skips it, because
`10 % 24 = 10 ∈ [8, 20]`; no zero-production constraint on the first
period is generated. -/
theorem no_production_at_t0_skips_working_hour_start :
    ("M", "E", "F", (10 : Int)) ∈
      (mkManufacturingOptimizer ["M"] ["E"] ["F"] 10 20 10).material_equipment_formula_time_indexes ∧
    no_production_when_factory_is_closed_rule "M" "E" "F" 10 = none := by
  refine ⟨by decide, ?_⟩
  rfl

/-- C5 (amended): the family stored as `no_production_at_t0` gates
production by factory hours: it forces `production[m,e,f,t] == 0` exactly
when `t % 24` is outside `[8, 20]`, and skips otherwise.  For the default
horizon start `t0 = 0` (hour `0 < 8`) this does force zero production in
the first period, but for a `t0` whose hour of day lies in `[8, 20]` no
constraint on production at `t0` is generated by this family. -/
theorem no_production_when_factory_is_closed_amended
    (material equipment formula : String) (time : Int) :
    (time % 24 < 8 ∨ time % 24 > 20 →
      no_production_when_factory_is_closed_rule material equipment formula time =
        some (fun model => model.production material equipment formula time = 0)) ∧
    (8 ≤ time % 24 ∧ time % 24 ≤ 20 →
      no_production_when_factory_is_closed_rule material equipment formula time =
        none) := by
  constructor
  · intro h
    rw [no_production_when_factory_is_closed_rule, if_pos h]
  · intro h
    rw [no_production_when_factory_is_closed_rule, if_neg (by omega)]

/-- Witness for the amended C5: at the default start `t0 = 0` the zero
production constraint is generated, while at hour `12` the rule skips. -/
theorem no_production_when_factory_is_closed_amended_w :
    no_production_when_factory_is_closed_rule "M" "E" "F" 0 =
      some (fun model => model.production "M" "E" "F" 0 = 0) ∧
    no_production_when_factory_is_closed_rule "M" "E" "F" 12 = none :=
  ⟨(no_production_when_factory_is_closed_amended "M" "E" "F" 0).1 (by norm_num),
   (no_production_when_factory_is_closed_amended "M" "E" "F" 12).2 (by norm_num)⟩

/-- C6 is false on the code: `generate_results` keeps every extracted row.
With an inventory value map holding the zero value `0` at index
`("A", 0)`, the returned `inventory_quantity` table contains that
zero-valued row. -/
theorem generate_results_keeps_zero_row :
    ((("A", (0 : Int)), (0 : ℚ)) ∈
      (generate_results [] [] [(("A", 0), 0)] [] []).inventory_quantity.rows) := by
  rw [generate_results]
  exact List.mem_singleton.mpr rfl

/-- C6 (amended): the extractor drops nothing — each table returned by
`generate_results` carries exactly the family's extracted value map as
rows (zero values included) under the family's column headers; the
zero-valued rows are removed only later, by the
`data.loc[data[col] != 0]` filter of `main.run_production_problem`, which
keeps exactly the rows with a non-zero value. -/
theorem generate_results_amended (production_values : List (MEFT × ℚ))
    (filled_values inventory_values purchased_values : List (MatTime × ℚ))
    (status_values : List (EquipTime × ℚ)) :
    (generate_results production_values filled_values inventory_values
        purchased_values status_values).production.rows = production_values ∧
    (generate_results production_values filled_values inventory_values
        purchased_values status_values).filled_demand.rows = filled_values ∧
    (generate_results production_values filled_values inventory_values
        purchased_values status_values).inventory_quantity.rows = inventory_values ∧
    (generate_results production_values filled_values inventory_values
        purchased_values status_values).purchased_quantity.rows = purchased_values ∧
    (generate_results production_values filled_values inventory_values
        purchased_values status_values).equipment_status.rows = status_values ∧
    (∀ (ι : Type) (table : ResultTable ι) (r : ι × ℚ),
      r ∈ (main_zero_row_filter table).rows ↔ r ∈ table.rows ∧ r.2 ≠ 0) := by
  refine ⟨rfl, rfl, rfl, rfl, rfl, ?_⟩
  intro ι table r
  simp [main_zero_row_filter, List.mem_filter]

/-- C7 is a bug in the code: `set_initial_inventory` never generates the
equality `inventory[m, t0] == initial_inventory[m]` and never fails with
an error naming a missing material.  Pyomo indexes the constraint over
`materials × initial_inventory.keys()` and calls the rule as
`rule(model, material, k)`, so the rule parameter named
`initial_inventory` shadows the dictionary with a key string, and
`initial_inventory[material]` raises `TypeError` (string indices must be
integers) for every index — present or missing alike. -/
theorem set_initial_inventory_rule_raises_type_error
    (t0 : Int) (material k : String) :
    set_initial_inventory_rule t0 material k = PyResult.typeErr :=
  rfl

/-- C8: on a `Bom` whose `formula_parent_component` keys are not
duplicated (the case in which the source `_bom_raw` dictionary is
number-valued), `get_required_quantity` is a total pure lookup: it
returns the stored proportion of the row carrying a present triple and
exactly `0` for an absent triple; being a function of an unchanged `Bom`,
it raises nothing and modifies nothing. -/
theorem get_required_quantity_total_lookup (b : Bom)
    (hkeys : b.rawKeys.Nodup) :
    (∀ r ∈ b.rows,
      b.get_required_quantity r.formula r.parent r.child = BomVal.q r.proportion) ∧
    (∀ f p c : String, (f, p, c) ∉ b.rawKeys →
      b.get_required_quantity f p c = BomVal.q 0) := by
  have hraw : b.rawRows.map Prod.fst = b.rawKeys := rawRows_map_fst b
  constructor
  · intro r hr
    rw [Bom.get_required_quantity, create_mapping_dictionary_from_two_columns,
      if_pos (hraw ▸ hkeys)]
    have hm : ((r.formula, r.parent, r.child), r.proportion) ∈ b.rawRows :=
      List.mem_map.mpr ⟨r, hr, rfl⟩
    rw [find?_assoc_of_nodup b.rawRows (hraw ▸ hkeys)
      (r.formula, r.parent, r.child) r.proportion hm]
    rfl
  · intro f p c hn
    rw [Bom.get_required_quantity, create_mapping_dictionary_from_two_columns,
      if_pos (hraw ▸ hkeys)]
    have hnone : b.rawRows.find? (fun r => decide (r.1 = (f, p, c))) = none := by
      rw [List.find?_eq_none]
      intro x hx
      simp only [decide_eq_true_eq]
      intro hx1
      apply hn
      rw [← hx1, ← hraw]
      exact List.mem_map.mpr ⟨x, hx, rfl⟩
    rw [hnone]
    rfl

/-- Witness for C8 on the concrete two-row BOM `bomTwoRows`: the present
triple `(F, P, C)` yields its stored proportion `2` and the absent triple
`(F, X, C)` yields `0`. -/
theorem get_required_quantity_total_lookup_w :
    bomTwoRows.rawKeys.Nodup ∧
    bomTwoRows.get_required_quantity "F" "P" "C" = BomVal.q 2 ∧
    bomTwoRows.get_required_quantity "F" "X" "C" = BomVal.q 0 :=
  ⟨by decide,
   (get_required_quantity_total_lookup bomTwoRows (by decide)).1
     ("F", "P", "C", (2 : ℚ)) (by decide),
   (get_required_quantity_total_lookup bomTwoRows (by decide)).2
     "F" "X" "C" (by decide)⟩

/-- C10: `Bom.__init__` is not side-effect-free on its argument — for any
BOM table that does not already carry a `formula_parent_component` column,
the caller's table after construction differs from the one passed in: the
new column, the tuple-zip of the formula, parent and children columns,
has been written into it in place. -/
theorem bom_init_mutates_caller_table (bom_data : DataFrame)
    (h : "formula_parent_component" ∉ bom_data.colNames) :
    bom_init_table bom_data ≠ bom_data ∧
    (bom_init_table bom_data).getCol "formula_parent_component" =
      unify_columns_into_tuple (bom_data.getCol "formula")
        (bom_data.getCol "manufactured_good") (bom_data.getCol "component") := by
  constructor
  · rw [bom_init_table, DataFrame.setCol, if_neg h]
    intro heq
    have hlen := congrArg List.length heq
    simp at hlen
  · exact getCol_setCol_of_not_mem bom_data _ _ h

/-- Witness for C10 on the concrete one-row table `bomTableEx`. -/
theorem bom_init_mutates_caller_table_w :
    "formula_parent_component" ∉ bomTableEx.colNames ∧
    (bom_init_table bomTableEx ≠ bomTableEx ∧
      (bom_init_table bomTableEx).getCol "formula_parent_component" =
        unify_columns_into_tuple (bomTableEx.getCol "formula")
          (bomTableEx.getCol "manufactured_good")
          (bomTableEx.getCol "component")) :=
  ⟨by decide, bom_init_mutates_caller_table bomTableEx (by decide)⟩

/-- C1: for `t0 ≤ t < tmax` the flow-balance rule generates exactly the
claimed equation — next period's inventory equals this period's plus
purchases and batch-scaled own production, minus batch-scaled consumption
by parents (summed over `allParentMaterials`, formulas and equipment with
`requiredQuantity` coefficients) and minus filled demand — and at
`t = tmax` the rule is skipped.  The `Nodup` hypothesis pins the source's
`_bom_raw` dictionary to its number-valued branch. -/
theorem material_flow_balance_matches_claim (b : FlowConstraintsBuilder)
    (minimum_units_in_batch : ℚ) (material : String) (t : Int)
    (_hkeys : b.bom.rawKeys.Nodup) (_h0 : b.t0 ≤ t) (h1 : t < b.tmax) :
    material_flow_balance_rule b minimum_units_in_batch material t =
      some (claim_flow_balance_equation b minimum_units_in_batch material t) ∧
    material_flow_balance_rule b minimum_units_in_batch material b.tmax = none := by
  constructor
  · rw [material_flow_balance_rule, if_neg (ne_of_lt h1)]
    refine congrArg some ?_
    funext model
    simp only [claim_flow_balance_equation]
    congr 1
    ring
  · rw [material_flow_balance_rule, if_pos rfl]

/-- Witness for C1 on the concrete builder `flowBuilderEx` at `t = 1`. -/
theorem material_flow_balance_matches_claim_w :
    flowBuilderEx.bom.rawKeys.Nodup ∧ flowBuilderEx.t0 ≤ (1 : Int) ∧
    (1 : Int) < flowBuilderEx.tmax ∧
    (material_flow_balance_rule flowBuilderEx 10 "C" 1 =
        some (claim_flow_balance_equation flowBuilderEx 10 "C" 1) ∧
      material_flow_balance_rule flowBuilderEx 10 "C" flowBuilderEx.tmax = none) :=
  ⟨by decide, by decide, by decide,
   material_flow_balance_matches_claim flowBuilderEx 10 "C" 1
     (by decide) (by decide) (by decide)⟩

/-- C9: the orchestrator's objective is maximized and its expression
equals, on every valuation, the claimed sum over all `(material, time)`
indexes of revenue minus inventory, purchasing and batch-scaled
production costs; and every dictionary lookup of an unmapped key
contributes exactly `0` (and, being a total lookup, raises nothing). -/
theorem objective_matches_claim (m : ManufacturingOptimizer) (costs : Costs)
    (selling_prices : String → Option ℚ) :
    (build_objective_function m costs selling_prices).sense = Sense.maximize ∧
    (∀ model : Valuation,
      (build_objective_function m costs selling_prices).expr model =
        claim_objective m costs selling_prices model) ∧
    (∀ (K : Type) (d : K → Option ℚ) (k : K), d k = none → dictGet d k = 0) := by
  refine ⟨rfl, ?_, ?_⟩
  · intro model
    show get_objective_function_expression m costs selling_prices model =
      claim_objective m costs selling_prices model
    simp only [get_objective_function_expression, claim_objective]
    apply sum_map_congr
    intro mt _
    rw [sum_comm_q m.formulas m.all_equipment (fun formula equipment =>
      dictGet costs.production (equipment, formula) *
        model.production mt.1 equipment formula mt.2)]
    ring
  · intro K d k h
    rw [dictGet, h]
    rfl

/-- Witness for C9 on the concrete optimizer `optEx`, empty dictionaries
and the all-ones valuation. -/
theorem objective_matches_claim_w :
    (build_objective_function optEx emptyCosts noPrices).sense = Sense.maximize ∧
    (build_objective_function optEx emptyCosts noPrices).expr onesValuation =
      claim_objective optEx emptyCosts noPrices onesValuation ∧
    dictGet (fun _ : String => (none : Option ℚ)) "A" = 0 :=
  ⟨(objective_matches_claim optEx emptyCosts noPrices).1,
   (objective_matches_claim optEx emptyCosts noPrices).2.1 onesValuation,
   (objective_matches_claim optEx emptyCosts noPrices).2.2 String (fun _ => none) "A" rfl⟩

end ProductionOpt
